import Mathlib

set_option maxRecDepth 8000
set_option linter.unusedVariables false

/-!
Shallow embedding of the muninn-sentinel5p plugin (muninn_sentinel5p.py).

Strings are modelled as `List Char` (Python strings are character sequences and
all slicing in the source is character based).  The three filename grammars are
regular expressions in which every group has a fixed width and the file-type
group is a literal, so a successful match has exactly one decomposition; the
matchers below implement that decomposition directly.  The regex classes used by
the source are `.` (any character except a newline) and `[\dT]`; the end anchor
`$` accepts the end of the string or a single final newline, as in Python.
Digit classes are modelled as ASCII digits (the naming convention is ASCII).

`datetime` values are modelled without microseconds; no behaviour in the source
observes microseconds.  `datetime.strptime`, `int()`, `timedelta(days=1)`
addition (including its OverflowError past year 9999), `os.path.basename`,
`os.path.splitext` and `str.split` are modelled after CPython's documented
behaviour on the inputs the source can feed them.  The external `coda` reader
used by `get_footprint` is modelled as an explicit environment record, since it
is an optional external capability; coordinate strings are kept as text and
their float conversion is represented by an environment-supplied failure
predicate (floating point is outside this development, and no claim observes
coordinate values).
-/

/-- Python regex class for the dot: any character except a newline. -/
def dotChar (c : Char) : Bool := c != '\n'

/-- Python regex class [\dT]: an ASCII decimal digit or the letter T. -/
def dateChar (c : Char) : Bool := c.isDigit || c == 'T'

/-- Characters that may appear in a filename handed to the classifiers:
anything except a newline (regex dot) or a path separator. -/
def fnameChar (c : Char) : Bool := c != '\n' && c != '/'

/-- Characters appearing in registered family codes (upper case letters,
digits and underscores); such codes contain no regex metacharacters, so the
file-type group spliced into the pattern by the source matches literally. -/
def ftChar (c : Char) : Bool := c.isUpper || c.isDigit || c == '_'

/-- Literal matcher: consume the literal from the front of the input or fail. -/
def pExpect : List Char → List Char → Option (List Char)
  | [], s => some s
  | _ :: _, [] => none
  | c :: l, d :: s => if c == d then pExpect l s else none

/-- Fixed-width group matcher: exactly n characters of class cls. -/
def pTake (n : Nat) (cls : Char → Bool) (s : List Char) : Option (List Char × List Char) :=
  if ((s.take n).length == n) && (s.take n).all cls then some (s.take n, s.drop n) else none

/-- Python regex end anchor: end of string, or just before one final newline. -/
def pEnd (s : List Char) : Bool := s == [] || s == ['\n']

/-- str.startswith for a plain prefix, as used for the CFG extension rule. -/
def pyStartswith (pre s : List Char) : Bool := (pExpect pre s).isSome

/-- One piece of a filename pattern: a literal, or a fixed-width group of a
character class.  The source builds each grammar as a list of such pieces. -/
inductive Tok where
  | lit (l : List Char)
  | grp (n : Nat) (cls : Char → Bool)

/-- Run a pattern against an input: consume literals, capture groups in order,
and require the Python end anchor after the last piece. -/
def runToks : List Tok → List Char → Option (List (List Char))
  | [], s => if pEnd s then some [] else none
  | Tok.lit l :: ts, s =>
    (match pExpect l s with
     | none => none
     | some s2 => runToks ts s2)
  | Tok.grp n cls :: ts, s =>
    (match pTake n cls s with
     | none => none
     | some (g, s2) => (runToks ts s2).map (fun gs => g :: gs))

/-- The input assembled from a pattern by splicing group values into the
grammar slots. -/
def mkInput : List Tok → List (List Char) → List Char
  | [], _ => []
  | Tok.lit l :: ts, gs => l ++ mkInput ts gs
  | Tok.grp _ _ :: ts, g :: gs => g ++ mkInput ts gs
  | Tok.grp _ _ :: _, [] => []

/-- Group values fitting the widths and character classes of a pattern. -/
def toksOk : List Tok → List (List Char) → Prop
  | [], [] => True
  | Tok.lit _ :: ts, gs => toksOk ts gs
  | Tok.grp n cls :: ts, g :: gs => g.length = n ∧ g.all cls = true ∧ toksOk ts gs
  | _, _ => False

/-- os.path.basename on a posix path: the part after the last slash. -/
def basename (p : List Char) : List Char :=
  (p.reverse.takeWhile (fun c => c != '/')).reverse

/-- First component of os.path.splitext applied to a basename: everything up to
the last dot, unless every character before that dot is itself a dot. -/
def splitextStem (b : List Char) : List Char :=
  match b.reverse.findIdx? (fun c => c == '.') with
  | none => b
  | some k =>
    let i := b.length - 1 - k
    if (b.take i).any (fun c => c != '.') then b.take i else b

/-- Python str.split with a one-character separator: n separators give n+1
pieces, so the empty string yields one empty piece. -/
def pySplitChar (sep : Char) : List Char → List (List Char)
  | [] => [[]]
  | c :: r =>
    match pySplitChar sep r with
    | h :: t => if c == sep then [] :: h :: t else (c :: h) :: t
    | [] => [[]]

/-- Python whitespace stripped by int() before parsing. -/
def isPySpace (c : Char) : Bool :=
  c == ' ' || c == '\t' || c == '\n' || c == '\r' || c == '\x0b' || c == '\x0c'

/-- str.strip for int(): drop whitespace from both ends. -/
def stripWs (s : List Char) : List Char :=
  ((s.dropWhile isPySpace).reverse.dropWhile isPySpace).reverse

/-- Numeric value of an ASCII digit. -/
def digitVal (c : Char) : Nat := c.toNat - 48

/-- Value of a digit string read left to right. -/
def digitsToNat (l : List Char) : Nat := l.foldl (fun a c => a * 10 + digitVal c) 0

/-- Tail of a Python int literal: digits, optionally separated by single
underscores placed between two digits. -/
def pyDigitsGo (acc : Nat) : List Char → Option Nat
  | [] => some acc
  | c :: r =>
    if c.isDigit then pyDigitsGo (acc * 10 + digitVal c) r
    else if c == '_' then
      match r with
      | c2 :: r2 => if c2.isDigit then pyDigitsGo (acc * 10 + digitVal c2) r2 else none
      | [] => none
    else none

/-- Start of a Python int literal after sign handling: at least one digit. -/
def pyDigitsStart : List Char → Option Nat
  | [] => none
  | c :: r => if c.isDigit then pyDigitsGo (digitVal c) r else none

/-- Python int() on a string in base 10: optional surrounding whitespace, an
optional single sign, then digits with optional single underscores between. -/
def pythonInt (s : List Char) : Option Int :=
  match stripWs s with
  | [] => none
  | c :: r =>
    if c == '+' then (pyDigitsStart r).map (fun n => (n : Int))
    else if c == '-' then (pyDigitsStart r).map (fun n => -(n : Int))
    else (pyDigitsStart (c :: r)).map (fun n => (n : Int))

/-- Python datetime modelled to the second (microseconds are never observed by
the source). -/
structure PyDateTime where
  year : Nat
  month : Nat
  day : Nat
  hour : Nat
  minute : Nat
  second : Nat
deriving DecidableEq

/-- datetime.min. -/
def datetimeMin : PyDateTime := ⟨1, 1, 1, 0, 0, 0⟩

/-- datetime.max, to the second. -/
def datetimeMax : PyDateTime := ⟨9999, 12, 31, 23, 59, 59⟩

/-- Proleptic Gregorian leap year rule used by Python's datetime. -/
def isLeapYear (y : Nat) : Bool := y % 4 == 0 && (y % 100 != 0 || y % 400 == 0)

/-- Number of days in a month of the proleptic Gregorian calendar. -/
def daysInMonth (y m : Nat) : Nat :=
  if m == 2 then (if isLeapYear y then 29 else 28)
  else if m == 4 || m == 6 || m == 9 || m == 11 then 30 else 31

/-- Validation performed by the datetime constructor (MINYEAR = 1,
MAXYEAR = 9999, real calendar days, seconds 0..59). -/
def mkDateTime (y m d h mi s : Nat) : Option PyDateTime :=
  if 1 ≤ y ∧ y ≤ 9999 ∧ 1 ≤ m ∧ m ≤ 12 ∧ 1 ≤ d ∧ d ≤ daysInMonth y m ∧
      h ≤ 23 ∧ mi ≤ 59 ∧ s ≤ 59 then
    some ⟨y, m, d, h, mi, s⟩
  else none

/-- datetime.strptime with format %Y%m%dT%H%M%S.  The strptime directives
accept 1-4 digits for %Y and 1-2 for the rest, but a string that matches must
spend at most 8 digits before the literal T and at most 6 after it, so on the
15-character groups handed over by the grammars the only possible decomposition
is 4-2-2-T-2-2-2, followed by the datetime constructor validation. -/
def strptimeYmdTHMS (s : List Char) : Option PyDateTime :=
  match pTake 8 Char.isDigit s with
  | none => none
  | some (dpart, rest) =>
    match pExpect ['T'] rest with
    | none => none
    | some rest2 =>
      match pTake 6 Char.isDigit rest2 with
      | none => none
      | some (tpart, rest3) =>
        if rest3 = [] then
          mkDateTime (digitsToNat (dpart.take 4)) (digitsToNat ((dpart.drop 4).take 2))
            (digitsToNat (dpart.drop 6)) (digitsToNat (tpart.take 2))
            (digitsToNat ((tpart.drop 2).take 2)) (digitsToNat (tpart.drop 4))
        else none

/-- datetime.strptime with format %Y%m%d on the 8-digit legacy date group:
the only decomposition is 4-2-2, at midnight. -/
def strptimeYmd (s : List Char) : Option PyDateTime :=
  match pTake 8 Char.isDigit s with
  | some (dpart, []) =>
    mkDateTime (digitsToNat (dpart.take 4)) (digitsToNat ((dpart.drop 4).take 2))
      (digitsToNat (dpart.drop 6)) 0 0 0
  | _ => none

/-- timedelta(days=1) addition on a datetime; none models the OverflowError
raised past datetime.max. -/
def addOneDay (d : PyDateTime) : Option PyDateTime :=
  if d.day < daysInMonth d.year d.month then some { d with day := d.day + 1 }
  else if d.month < 12 then some { d with month := d.month + 1, day := 1 }
  else if d.year < 9999 then some { d with year := d.year + 1, month := 1, day := 1 }
  else none

/-- strftime %m and %d: two digits, zero padded. -/
def fmt2 (n : Nat) : List Char :=
  if n < 10 then '0' :: (Nat.repr n).toList else (Nat.repr n).toList

/-- strftime %Y as glibc prints it: an unpadded decimal number.  All claims
about archive paths are stated for years at or above 1000, where every
platform agrees with the four-digit reading. -/
def fmtYear (n : Nat) : List Char := (Nat.repr n).toList

/-! The product type registry (module level constants of the source). -/

/-- L1_PRODUCT_TYPES. -/
def L1_PRODUCT_TYPES : List (List Char) :=
  ["L1B_RA_BD1".toList, "L1B_RA_BD2".toList, "L1B_RA_BD3".toList, "L1B_RA_BD4".toList,
   "L1B_RA_BD5".toList, "L1B_RA_BD6".toList, "L1B_RA_BD7".toList, "L1B_RA_BD8".toList,
   "L1B_IR_UVN".toList, "L1B_IR_SIR".toList, "L1B_CA_UVN".toList, "L1B_CA_SIR".toList,
   "L1B_ENG_DB".toList]

/-- L2_PRODUCT_TYPES. -/
def L2_PRODUCT_TYPES : List (List Char) :=
  ["L2__AER_AI".toList, "L2__AER_LH".toList, "L2__CH4___".toList, "L2__CLOUD_".toList,
   "L2__CO____".toList, "L2__FRESCO".toList, "L2__HCHO__".toList, "L2__NO2___".toList,
   "L2__NP_BD3".toList, "L2__NP_BD6".toList, "L2__NP_BD7".toList, "L2__O3_TCL".toList,
   "L2__O3_TPR".toList, "L2__O3__PR".toList, "L2__O3____".toList, "L2__SO2___".toList]

/-- AUX_PRODUCT_TYPES. -/
def AUX_PRODUCT_TYPES : List (List Char) :=
  ["AUX_CTMANA".toList, "AUX_CTMCH4".toList, "AUX_CTMFCT".toList, "AUX_CTM_CO".toList,
   "AUX_ISRF__".toList, "AUX_MET_2D".toList, "AUX_MET_QP".toList, "AUX_MET_TP".toList,
   "AUX_NISE__".toList, "AUX_O3PPWL".toList, "AUX_O3___M".toList, "AUX_SF_UVN".toList,
   "CFG_AER_AI".toList, "CFG_AER_LH".toList, "CFG_CH4__F".toList, "CFG_CH4___".toList,
   "CFG_CO___F".toList, "CFG_CO____".toList, "CFG_FRESCB".toList, "CFG_FRESCO".toList,
   "CFG_NO2___".toList, "CFG_O3_PRF".toList, "CFG_O3__PR".toList, "LUT_AAI___".toList,
   "LUT_ALH_NN".toList, "LUT_CH4AER".toList, "LUT_CH4CIR".toList, "LUT_FRESCO".toList,
   "LUT_NO2AMF".toList, "LUT_NO2CLD".toList, "LUT_O22CLD".toList, "LUT_O3PCLD".toList,
   "LUT_O3PPOL".toList, "LUT_POLCOR".toList, "REF_DEM___".toList, "REF_LER___".toList,
   "REF_SOLAR_".toList, "REF_XS_CH4".toList, "REF_XS_NO2".toList, "REF_XS_O3P".toList,
   "REF_XS__CO".toList]

/-- MUNINN_PRODUCT_TYPES: every family code prefixed with S5P_. -/
def MUNINN_PRODUCT_TYPES : List (List Char) :=
  (L1_PRODUCT_TYPES ++ L2_PRODUCT_TYPES ++ AUX_PRODUCT_TYPES).map
    (fun t => "S5P_".toList ++ t)

/-! The metadata record (muninn Struct with the core and s5p namespaces). -/

/-- A geometry point; the coordinate texts are the strings the source passes to
float(), kept as text since no claim observes numeric coordinate values.
The first component is the longitude text, the second the latitude text. -/
structure Point where
  lonTxt : List Char
  latTxt : List Char
deriving DecidableEq

/-- A polygon with its single exterior linear ring. -/
structure Polygon where
  ring : List Point
deriving DecidableEq

/-- The s5p namespace of a metadata record; none models an attribute that was
never set on the Struct. -/
structure S5PStruct where
  file_class : List Char
  file_type : List Char
  orbit : Option Int
  collection : Option Int
  processor_version : Option Int
deriving DecidableEq

/-- The core namespace of a metadata record; the outer Option on footprint
models whether the attribute was set at all. -/
structure CoreStruct where
  product_name : List Char
  creation_date : PyDateTime
  validity_start : PyDateTime
  validity_stop : PyDateTime
  footprint : Option (Option Polygon)
deriving DecidableEq

/-- The full record returned by analyze. -/
structure Properties where
  core : CoreStruct
  s5p : S5PStruct
deriving DecidableEq

/-! The footprint resolver and its external coda environment. -/

/-- Exceptions that can escape get_footprint. -/
inductive PyExc where
  | codacError
  | valueError
deriving DecidableEq

/-- The optional external coda reader: whether the import succeeds, whether
opening a product succeeds, the result of fetching the posList metadata field
of a product, and which coordinate texts fail float conversion. -/
structure CodaEnv where
  available : Bool
  openOk : List Char → Bool
  fetchRes : List Char → Except Unit (List Char)
  floatFails : List Char → Bool

/-- Pair up a list as zip(l[0::2], l[1::2]) does when its length is even. -/
def zipEvenOdd {α : Type} : List α → List (α × α)
  | a :: b :: r => (a, b) :: zipEvenOdd r
  | _ => []

/-- get_footprint.  The import failure returns None; coda.open is called
outside the try block, so its failure propagates; a fetch failure is caught
(returning None, with the file closed by the finally block); an odd coordinate
count returns None; a float conversion failure propagates. -/
def get_footprint (env : CodaEnv) (product : List Char) : Except PyExc (Option Polygon) :=
  if env.available = false then Except.ok none
  else if env.openOk product = false then Except.error PyExc.codacError
  else
    match env.fetchRes product with
    | Except.error _ => Except.ok none
    | Except.ok posList =>
      let coord := pySplitChar ' ' posList
      if coord.length % 2 != 0 then Except.ok none
      else if (zipEvenOdd coord).any (fun pr => env.floatFails pr.2 || env.floatFails pr.1) then
        Except.error PyExc.valueError
      else Except.ok (some ⟨(zipEvenOdd coord).map (fun pr => ⟨pr.2, pr.1⟩)⟩)

/-! The standard classifier (class Sentinel5PProduct).  Its grammar, with ft
the family code product_type[4:] spliced in as a literal, is
S5P_<fc:4 dot>_<ft>_<vs:15 dT>_<vstop:15 dT>_<orbit:5 dot>_<coll:2 dot>_<pv:6 dot>_<cd:15 dT>.nc$ -/

/-- Named groups of a standard filename match (re groupdict). -/
structure StdNameAttrs where
  file_class : List Char
  file_type : List Char
  validity_start : List Char
  validity_stop : List Char
  orbit : List Char
  collection : List Char
  processor_version : List Char
  creation_date : List Char
deriving DecidableEq

namespace Sentinel5PProduct

/-- The standard pattern, transcribing the pattern list of the source joined
with underscores: every group has a fixed width and the file-type group is the
literal ft, so this token sequence is the unique possible decomposition of the
regex built by the source. -/
def toks (ft : List Char) : List Tok :=
  [Tok.lit "S5P_".toList, Tok.grp 4 dotChar, Tok.lit "_".toList, Tok.lit ft,
   Tok.lit "_".toList, Tok.grp 15 dateChar, Tok.lit "_".toList, Tok.grp 15 dateChar,
   Tok.lit "_".toList, Tok.grp 5 dotChar, Tok.lit "_".toList, Tok.grp 2 dotChar,
   Tok.lit "_".toList, Tok.grp 6 dotChar, Tok.lit "_".toList, Tok.grp 15 dateChar,
   Tok.lit ".nc".toList]

/-- Match a basename against the standard grammar, naming the groups as the
source's groupdict does. -/
def matchFilename (ft : List Char) (b : List Char) : Option StdNameAttrs :=
  match runToks (toks ft) b with
  | some [fc, vs, vst, orb, col, pv, cd] => some ⟨fc, ft, vs, vst, orb, col, pv, cd⟩
  | _ => none

/-- parse_filename: match against the basename of the given path. -/
def parse_filename (ft : List Char) (filename : List Char) : Option StdNameAttrs :=
  matchFilename ft (basename filename)

/-- identify: false unless exactly one path is given whose basename matches. -/
def identify (ft : List Char) (paths : List (List Char)) : Bool :=
  match paths with
  | [p] => (matchFilename ft (basename p)).isSome
  | _ => false

/-- archive_path: re-parse the physical name and lay the product under
sentinel-5p/<file_type>/<file_class>/<year>/<month>/<day>; os.path.join of
slash-free components is modelled as slash interposition.  none models the
TypeError raised when the physical name does not match the grammar. -/
def archive_path (ft : List Char) (physical_name : List Char) (validity_start : PyDateTime) :
    Option (List Char) :=
  (matchFilename ft (basename physical_name)).map fun na =>
    "sentinel-5p/".toList ++ na.file_type ++ "/".toList ++ na.file_class ++ "/".toList ++
      fmtYear validity_start.year ++ "/".toList ++ fmt2 validity_start.month ++ "/".toList ++
      fmt2 validity_start.day

/-- The footprint assignment inside the standard analyze: skipped when
filename_only (outer value some none: the attribute stays absent), set to the
resolver's result when requested, and an error propagated by the resolver
aborts analyze (outer none). -/
def footprintStep (env : CodaEnv) (inpath : List Char) (filename_only : Bool) :
    Option (Option (Option Polygon)) :=
  if filename_only then some none
  else match get_footprint env inpath with
    | Except.error _ => none
    | Except.ok v => some (some v)

/-- analyze: parse the first path's basename, parse the three timestamps
strictly, resolve the footprint unless filename_only, and parse the three
integer fields; none models any exception escaping (IndexError on an empty
list, TypeError on a non-match, ValueError from strptime or int, or an error
propagated out of get_footprint). -/
def analyze (env : CodaEnv) (ft : List Char) (paths : List (List Char))
    (filename_only : Bool) : Option Properties := do
  let inpath ← paths.head?
  let na ← matchFilename ft (basename inpath)
  let cd ← strptimeYmdTHMS na.creation_date
  let vs ← strptimeYmdTHMS na.validity_start
  let vst ← strptimeYmdTHMS na.validity_stop
  let fp ← footprintStep env inpath filename_only
  let orb ← pythonInt na.orbit
  let col ← pythonInt na.collection
  let pv ← pythonInt na.processor_version
  pure {
    core := { product_name := splitextStem (basename inpath), creation_date := cd,
              validity_start := vs, validity_stop := vst, footprint := fp },
    s5p := { file_class := na.file_class, file_type := na.file_type,
             orbit := some orb, collection := some col, processor_version := some pv } }

end Sentinel5PProduct

/-! The generic auxiliary classifier (class Sentinel5PAuxiliaryProduct).
Grammar: S5P_<fc:4 dot>_<ft>_<vs:15 dT>_<vstop:15 dT>_<cd:15 dT>.<extension>$
(with no dot and no extension when the configured extension is empty). -/

/-- Named groups of an auxiliary filename match. -/
structure AuxNameAttrs where
  file_class : List Char
  file_type : List Char
  validity_start : List Char
  validity_stop : List Char
  creation_date : List Char
deriving DecidableEq

/-- The all-zeros validity start sentinel of the auxiliary grammar. -/
def zeroSentinel : List Char := "00000000T000000".toList

/-- The all-nines validity stop sentinel of the auxiliary grammar. -/
def nineSentinel : List Char := "99999999T999999".toList

namespace Sentinel5PAuxiliaryProduct

/-- The auxiliary pattern for family code ft and the configured extension;
an empty extension contributes no final literal at all. -/
def toks (ft ext0 : List Char) : List Tok :=
  [Tok.lit "S5P_".toList, Tok.grp 4 dotChar, Tok.lit "_".toList, Tok.lit ft,
   Tok.lit "_".toList, Tok.grp 15 dateChar, Tok.lit "_".toList, Tok.grp 15 dateChar,
   Tok.lit "_".toList, Tok.grp 15 dateChar,
   Tok.lit (if ext0 = [] then [] else '.' :: ext0)]

/-- Match a basename against the auxiliary grammar. -/
def matchFilename (ft ext0 : List Char) (b : List Char) : Option AuxNameAttrs :=
  match runToks (toks ft ext0) b with
  | some [fc, vs, vst, cd] => some ⟨fc, ft, vs, vst, cd⟩
  | _ => none

/-- identify for the auxiliary grammar. -/
def identify (ft ext0 : List Char) (paths : List (List Char)) : Bool :=
  match paths with
  | [p] => (matchFilename ft ext0 (basename p)).isSome
  | _ => false

/-- archive_path: flat sentinel-5p/<family code> when the validity start is
datetime.min, else sentinel-5p/<family code>/<year>/<month>.  The family code
is product_type[4:] of the stored muninn product type. -/
def archive_path (product_type : List Char) (validity_start : PyDateTime) : List Char :=
  if validity_start = datetimeMin then "sentinel-5p/".toList ++ product_type.drop 4
  else
    "sentinel-5p/".toList ++ product_type.drop 4 ++ "/".toList ++
      fmtYear validity_start.year ++ "/".toList ++ fmt2 validity_start.month

/-- analyze: the zero sentinel maps the validity start to datetime.min, the
nine sentinel maps the validity stop to datetime.max, anything else is parsed
strictly; no footprint attribute and no integer fields are ever set. -/
def analyze (ft ext0 : List Char) (paths : List (List Char)) (filename_only : Bool) :
    Option Properties := do
  let inpath ← paths.head?
  let na ← matchFilename ft ext0 (basename inpath)
  let cd ← strptimeYmdTHMS na.creation_date
  let vs ← (if na.validity_start = zeroSentinel then some datetimeMin
            else strptimeYmdTHMS na.validity_start)
  let vst ← (if na.validity_stop = nineSentinel then some datetimeMax
             else strptimeYmdTHMS na.validity_stop)
  pure {
    core := { product_name := splitextStem (basename inpath), creation_date := cd,
              validity_start := vs, validity_stop := vst, footprint := none },
    s5p := { file_class := na.file_class, file_type := na.file_type,
             orbit := none, collection := none, processor_version := none } }

end Sentinel5PAuxiliaryProduct

/-! The legacy snow/ice classifier (class Sentinel5PAuxiliaryNISEProduct).
Grammar: NISE_SSMISF18_<date:8 digits>.HDFEOS$ -/

/-- The single named group of a legacy NISE filename match. -/
structure NiseNameAttrs where
  validity_start : List Char
deriving DecidableEq

namespace Sentinel5PAuxiliaryNISEProduct

/-- The legacy NISE pattern. -/
def toks : List Tok :=
  [Tok.lit "NISE_SSMISF18_".toList, Tok.grp 8 Char.isDigit, Tok.lit ".HDFEOS".toList]

/-- Match a basename against the legacy NISE grammar. -/
def matchFilename (b : List Char) : Option NiseNameAttrs :=
  match runToks toks b with
  | some [vs] => some ⟨vs⟩
  | _ => none

/-- identify for the legacy NISE grammar. -/
def identify (paths : List (List Char)) : Bool :=
  match paths with
  | [p] => (matchFilename (basename p)).isSome
  | _ => false

/-- analyze: the date parses at midnight, the validity stop is one day later
(none models the OverflowError on 9999-12-31), the creation date equals the
validity start, and the s5p fields are the constants OPER and AUX_NISE__. -/
def analyze (paths : List (List Char)) (filename_only : Bool) : Option Properties := do
  let inpath ← paths.head?
  let na ← matchFilename (basename inpath)
  let vs ← strptimeYmd na.validity_start
  let vst ← addOneDay vs
  pure {
    core := { product_name := splitextStem (basename inpath), creation_date := vs,
              validity_start := vs, validity_stop := vst, footprint := none },
    s5p := { file_class := "OPER".toList, file_type := "AUX_NISE__".toList,
             orbit := none, collection := none, processor_version := none } }

end Sentinel5PAuxiliaryNISEProduct

/-! The registry entry points. -/

/-- The classifier instance constructed by the registry, as a closed variant
carrying the constructor arguments of the source classes. -/
inductive Classifier where
  | standard (product_type : List Char)
  | genericAux (product_type : List Char) (extension : List Char)
  | legacyAux (product_type : List Char)
deriving DecidableEq

/-- product_types(). -/
def product_types : List (List Char) := MUNINN_PRODUCT_TYPES

/-- product_type_plugin: dispatch on the identifier with its first four
characters removed; L1/L2 codes get the standard classifier, the snow/ice code
gets the legacy classifier, other auxiliary codes get the generic auxiliary
classifier with extension cfg for CFG codes and the default nc otherwise, and
anything else falls through to None. -/
def product_type_plugin (muninn_product_type : List Char) : Option Classifier :=
  let product_type := muninn_product_type.drop 4
  if product_type ∈ L1_PRODUCT_TYPES ++ L2_PRODUCT_TYPES then
    some (Classifier.standard muninn_product_type)
  else if product_type = "AUX_NISE__".toList then
    some (Classifier.legacyAux muninn_product_type)
  else if product_type ∈ AUX_PRODUCT_TYPES then
    (if pyStartswith "CFG".toList product_type then
      some (Classifier.genericAux muninn_product_type "cfg".toList)
     else some (Classifier.genericAux muninn_product_type "nc".toList))
  else none

/-! Constructed filenames used to state the round trip law: a filename built
by filling the grammar slots of each variant. -/

/-- A standard filename built from field values (appends nested to the right,
matching the order in which the grammar consumes them). -/
def stdName (fc ft vs vst orb col pv cd : List Char) : List Char :=
  "S5P_".toList ++ (fc ++ ("_".toList ++ (ft ++ ("_".toList ++ (vs ++ ("_".toList ++ (vst ++
    ("_".toList ++ (orb ++ ("_".toList ++ (col ++ ("_".toList ++ (pv ++ ("_".toList ++ (cd ++
    ".nc".toList)))))))))))))))

/-- An auxiliary filename built from field values and a nonempty extension. -/
def auxName (fc ft vs vst cd ext0 : List Char) : List Char :=
  "S5P_".toList ++ (fc ++ ("_".toList ++ (ft ++ ("_".toList ++ (vs ++ ("_".toList ++ (vst ++
    ("_".toList ++ (cd ++ ('.' :: ext0))))))))))

/-- A legacy NISE filename built from a date field. -/
def niseName (ds : List Char) : List Char :=
  "NISE_SSMISF18_".toList ++ (ds ++ ".HDFEOS".toList)

/-- An environment in which the coda reader is not installed. -/
def noCodaEnv : CodaEnv :=
  { available := false, openOk := fun _ => true, fetchRes := fun _ => Except.error (),
    floatFails := fun _ => false }

/-- An environment in which coda is installed but opening the given product
fails (the product is not a valid structured scientific data file). -/
def openFailEnv : CodaEnv :=
  { available := true, openOk := fun _ => false, fetchRes := fun _ => Except.error (),
    floatFails := fun _ => false }


/-- The classification the specification describes for one registered
identifier, written from the claim's words: the standard variant for L1/L2
family codes, the legacy variant exactly for the snow/ice code, the generic
auxiliary variant otherwise, with extension cfg exactly for CFG codes; the
check also requires resolve to hand the identifier itself to the classifier. -/
def registrySpecOk (mt : List Char) : Bool :=
  match product_type_plugin mt with
  | some (Classifier.standard pt) =>
    pt == mt && decide (mt.drop 4 ∈ L1_PRODUCT_TYPES ++ L2_PRODUCT_TYPES)
  | some (Classifier.legacyAux pt) =>
    pt == mt && (mt.drop 4 == "AUX_NISE__".toList)
  | some (Classifier.genericAux pt e) =>
    pt == mt && decide (mt.drop 4 ∈ AUX_PRODUCT_TYPES) &&
      (mt.drop 4 != "AUX_NISE__".toList) &&
      (e == (if pyStartswith "CFG".toList (mt.drop 4) then "cfg".toList else "nc".toList))
  | none => false

/-- A well formed standard level 2 filename used as a concrete instance. -/
def stdExampleName : List Char :=
  stdName "OFFL".toList "L2__NO2___".toList "20210305T010203".toList "20210305T020203".toList
    "01234".toList "01".toList "010000".toList "20210305T030405".toList

/-- A filename that the standard grammar accepts (orbit is five dot-class
characters) but whose orbit field is not an int literal. -/
def c2BadName : List Char :=
  stdName "OFFL".toList "L2__NO2___".toList "20210305T010203".toList "20210305T020203".toList
    "XXXXX".toList "01".toList "010000".toList "20210305T030405".toList

/-- A well formed auxiliary filename carrying both open-validity sentinels. -/
def auxExampleName : List Char :=
  auxName "OFFL".toList "AUX_CTMANA".toList zeroSentinel nineSentinel
    "20210305T010203".toList "nc".toList


/-- The record the auxiliary classifier extracts from auxExampleName. -/
def auxExampleRecord : Properties :=
  { core := { product_name := "S5P_OFFL_AUX_CTMANA_00000000T000000_99999999T999999_20210305T010203".toList,
              creation_date := ⟨2021, 3, 5, 1, 2, 3⟩, validity_start := datetimeMin,
              validity_stop := datetimeMax, footprint := none },
    s5p := { file_class := "OFFL".toList, file_type := "AUX_CTMANA".toList,
             orbit := none, collection := none, processor_version := none } }

/-- A well formed legacy NISE filename used as a concrete instance. -/
def niseExampleName : List Char := "NISE_SSMISF18_20200115.HDFEOS".toList

/-- The record the legacy classifier extracts from niseExampleName. -/
def niseExampleRecord : Properties :=
  { core := { product_name := "NISE_SSMISF18_20200115".toList,
              creation_date := ⟨2020, 1, 15, 0, 0, 0⟩, validity_start := ⟨2020, 1, 15, 0, 0, 0⟩,
              validity_stop := ⟨2020, 1, 16, 0, 0, 0⟩, footprint := none },
    s5p := { file_class := "OPER".toList, file_type := "AUX_NISE__".toList,
             orbit := none, collection := none, processor_version := none } }

/-! Helper lemmas about the matching combinators. -/

theorem takeLenAppend {α : Type} (f r : List α) : (f ++ r).take f.length = f := by
  induction f with
  | nil => rfl
  | cons a t ih => simp [ih]

theorem dropLenAppend {α : Type} (f r : List α) : (f ++ r).drop f.length = r := by
  induction f with
  | nil => rfl
  | cons a t ih => simp [ih]

theorem pExpect_append (lit r : List Char) : pExpect lit (lit ++ r) = some r := by
  induction lit with
  | nil => rfl
  | cons c l ih => simp [pExpect, ih]

theorem pExpect_refl (l : List Char) : pExpect l l = some [] := by
  have h := pExpect_append l []
  simpa using h

theorem pTake_append (n : Nat) (cls : Char → Bool) (f : List Char)
    (h1 : f.length = n) (h2 : f.all cls = true) (r : List Char) :
    pTake n cls (f ++ r) = some (f, r) := by
  subst h1
  unfold pTake
  rw [takeLenAppend, dropLenAppend]
  simp [h2]

theorem pExpect_eq_some (lit s r : List Char) (h : pExpect lit s = some r) : s = lit ++ r := by
  induction lit generalizing s with
  | nil =>
    simp [pExpect] at h
    simp [h]
  | cons c l ih =>
    cases s with
    | nil => simp [pExpect] at h
    | cons d t =>
      rw [pExpect] at h
      split at h
      · rename_i hcd
        have hd : c = d := by simpa using hcd
        rw [List.cons_append, ← hd, ih t h]
      · exact absurd h (by simp)

theorem pTake_eq_some (n : Nat) (cls : Char → Bool) (s f r : List Char)
    (h : pTake n cls s = some (f, r)) :
    s = f ++ r ∧ f.length = n ∧ f.all cls = true := by
  unfold pTake at h
  split at h
  · rename_i hcond
    simp at h hcond
    obtain ⟨hf, hr⟩ := h
    subst hf; subst hr
    refine ⟨(List.take_append_drop n s).symm, ?_, ?_⟩
    · simp [List.length_take]
      omega
    · simp [List.all_eq_true]
      exact hcond.2
  · exact absurd h (by simp)

theorem all_mono (p q : Char → Bool) (h : ∀ c, p c = true → q c = true) :
    ∀ l : List Char, l.all p = true → l.all q = true := by
  intro l hl
  simp [List.all_eq_true] at hl ⊢
  exact fun c hc => h c (hl c hc)

/-! Character class facts. -/

theorem dotChar_of_digit (c : Char) (h : c.isDigit = true) : dotChar c = true := by
  by_cases hc : c = '\n'
  · subst hc; exact absurd h (by decide)
  · simp [dotChar, hc]

theorem dateChar_of_digit (c : Char) (h : c.isDigit = true) : dateChar c = true := by
  simp [dateChar, h]

theorem fnameChar_of_digit (c : Char) (h : c.isDigit = true) : fnameChar c = true := by
  by_cases h1 : c = '\n'
  · subst h1; exact absurd h (by decide)
  · by_cases h2 : c = '/'
    · subst h2; exact absurd h (by decide)
    · simp [fnameChar, h1, h2]

theorem fnameChar_of_ftChar (c : Char) (h : ftChar c = true) : fnameChar c = true := by
  by_cases h1 : c = '\n'
  · subst h1; exact absurd h (by decide)
  · by_cases h2 : c = '/'
    · subst h2; exact absurd h (by decide)
    · simp [fnameChar, h1, h2]

theorem fnameChar_of_dateChar (c : Char) (h : dateChar c = true) : fnameChar c = true := by
  by_cases h1 : c = '\n'
  · subst h1; exact absurd h (by decide)
  · by_cases h2 : c = '/'
    · subst h2; exact absurd h (by decide)
    · simp [fnameChar, h1, h2]

theorem dotChar_of_fnameChar (c : Char) (h : fnameChar c = true) : dotChar c = true := by
  rw [fnameChar, Bool.and_eq_true] at h
  exact h.1

theorem noSlash_of_fnameChar (c : Char) (h : fnameChar c = true) : (c != '/') = true := by
  rw [fnameChar, Bool.and_eq_true] at h
  exact h.2

/-! basename on slash-free strings. -/

theorem takeWhile_of_all (p : Char → Bool) (l : List Char) (h : l.all p = true) :
    l.takeWhile p = l := by
  induction l with
  | nil => rfl
  | cons c r ih =>
    rw [List.all_cons, Bool.and_eq_true] at h
    simp [List.takeWhile_cons, h.1, ih h.2]

theorem basename_eq_self (l : List Char) (h : l.all (fun c => c != '/') = true) :
    basename l = l := by
  unfold basename
  have hrev : l.reverse.all (fun c => c != '/') = true := by
    simp [List.all_eq_true] at h ⊢
    exact fun c hc => h c hc
  rw [takeWhile_of_all _ _ hrev, List.reverse_reverse]

/-! Python int() on pure digit strings. -/

theorem not_space_of_digit (c : Char) (h : c.isDigit = true) : isPySpace c = false := by
  by_cases h1 : c = ' '
  · subst h1; exact absurd h (by decide)
  · by_cases h2 : c = '\t'
    · subst h2; exact absurd h (by decide)
    · by_cases h3 : c = '\n'
      · subst h3; exact absurd h (by decide)
      · by_cases h4 : c = '\r'
        · subst h4; exact absurd h (by decide)
        · by_cases h5 : c = '\x0b'
          · subst h5; exact absurd h (by decide)
          · by_cases h6 : c = '\x0c'
            · subst h6; exact absurd h (by decide)
            · simp [isPySpace, h1, h2, h3, h4, h5, h6]

theorem dropWhile_head_not (p : Char → Bool) (l : List Char)
    (h : ∀ c ∈ l, p c = false) : l.dropWhile p = l := by
  cases l with
  | nil => rfl
  | cons c r => simp [List.dropWhile_cons, h c (List.mem_cons_self c r)]

theorem stripWs_digits (l : List Char) (h : l.all Char.isDigit = true) : stripWs l = l := by
  have hall : ∀ c ∈ l, isPySpace c = false := by
    simp [List.all_eq_true] at h
    exact fun c hc => not_space_of_digit c (h c hc)
  unfold stripWs
  rw [dropWhile_head_not _ _ hall]
  rw [dropWhile_head_not _ _ (fun c hc => hall c (List.mem_reverse.mp hc)), List.reverse_reverse]

theorem pyDigitsGo_digits (l : List Char) :
    ∀ acc : Nat, l.all Char.isDigit = true →
      pyDigitsGo acc l = some (l.foldl (fun a c => a * 10 + digitVal c) acc) := by
  induction l with
  | nil => intro acc h; rfl
  | cons c r ih =>
    intro acc h
    rw [List.all_cons, Bool.and_eq_true] at h
    unfold pyDigitsGo
    simp [h.1, ih _ h.2]

theorem digit_ne_plus (c : Char) (h : c.isDigit = true) : (c == '+') = false := by
  by_cases hc : c = '+'
  · subst hc; exact absurd h (by decide)
  · simp [hc]

theorem digit_ne_minus (c : Char) (h : c.isDigit = true) : (c == '-') = false := by
  by_cases hc : c = '-'
  · subst hc; exact absurd h (by decide)
  · simp [hc]

theorem pythonInt_digits (l : List Char) (hne : l ≠ []) (h : l.all Char.isDigit = true) :
    pythonInt l = some ((digitsToNat l : Nat) : Int) := by
  cases l with
  | nil => exact absurd rfl hne
  | cons c r =>
    have hsw : stripWs (c :: r) = c :: r := stripWs_digits _ h
    have hcr := h
    rw [List.all_cons, Bool.and_eq_true] at hcr
    unfold pythonInt
    rw [hsw]
    simp [digit_ne_plus c hcr.1, digit_ne_minus c hcr.1, pyDigitsStart, hcr.1,
      pyDigitsGo_digits r _ hcr.2, digitsToNat]

/-! Shape of timestamps accepted by strptime. -/

theorem strptimeYmdTHMS_shape (s : List Char) (d : PyDateTime)
    (h : strptimeYmdTHMS s = some d) : s.length = 15 ∧ s.all dateChar = true := by
  unfold strptimeYmdTHMS at h
  split at h
  · exact absurd h (by simp)
  · rename_i dpart rest h8
    split at h
    · exact absurd h (by simp)
    · rename_i rest2 hT
      split at h
      · exact absurd h (by simp)
      · rename_i tpart rest3 h6
        split at h
        · rename_i h0
          subst h0
          obtain ⟨hs, hd8, hdc⟩ := pTake_eq_some _ _ _ _ _ h8
          have hrest := pExpect_eq_some _ _ _ hT
          obtain ⟨hs2, ht6, htc⟩ := pTake_eq_some _ _ _ _ _ h6
          subst hs; subst hrest; subst hs2
          constructor
          · simp [hd8, ht6]
          · simp only [List.all_append, List.append_nil, List.all_cons, List.all_nil,
              Bool.and_true, Bool.and_eq_true]
            exact ⟨all_mono _ _ dateChar_of_digit _ hdc, by decide,
              all_mono _ _ dateChar_of_digit _ htc⟩
        · exact absurd h (by simp)

theorem strptimeYmd_midnight (s : List Char) (d : PyDateTime)
    (h : strptimeYmd s = some d) : d.hour = 0 ∧ d.minute = 0 ∧ d.second = 0 := by
  unfold strptimeYmd at h
  split at h
  · rename_i dpart h8
    unfold mkDateTime at h
    split at h
    · injection h with h
      subst h
      exact ⟨rfl, rfl, rfl⟩
    · exact absurd h (by simp)
  · exact absurd h (by simp)

/-! Constructed filenames match their grammars, with the expected groups. -/

theorem runToks_mkInput (ts : List Tok) :
    ∀ gs : List (List Char), toksOk ts gs → runToks ts (mkInput ts gs) = some gs := by
  induction ts with
  | nil =>
    intro gs h
    cases gs with
    | nil => rfl
    | cons g gs => exact h.elim
  | cons t ts ih =>
    intro gs h
    cases t with
    | lit l =>
      have h2 : toksOk ts gs := h
      show (match pExpect l (l ++ mkInput ts gs) with
            | none => none
            | some s2 => runToks ts s2) = some gs
      rw [pExpect_append]
      exact ih gs h2
    | grp n cls =>
      cases gs with
      | nil => exact h.elim
      | cons g gs =>
        have h2 : g.length = n ∧ g.all cls = true ∧ toksOk ts gs := h
        show (match pTake n cls (g ++ mkInput ts gs) with
              | none => none
              | some (g2, s2) => (runToks ts s2).map (fun gs2 => g2 :: gs2)) = some (g :: gs)
        rw [pTake_append n cls g h2.1 h2.2.1]
        show Option.map (fun gs2 => g :: gs2) (runToks ts (mkInput ts gs)) = some (g :: gs)
        rw [ih gs h2.2.2]
        rfl

theorem matchFilename_stdName (fc ft vs vst orb col pv cd : List Char)
    (hfc : fc.length = 4) (hfcc : fc.all dotChar = true)
    (hvs : vs.length = 15) (hvsc : vs.all dateChar = true)
    (hvst : vst.length = 15) (hvstc : vst.all dateChar = true)
    (horb : orb.length = 5) (horbc : orb.all dotChar = true)
    (hcol : col.length = 2) (hcolc : col.all dotChar = true)
    (hpv : pv.length = 6) (hpvc : pv.all dotChar = true)
    (hcd : cd.length = 15) (hcdc : cd.all dateChar = true) :
    Sentinel5PProduct.matchFilename ft (stdName fc ft vs vst orb col pv cd) =
      some ⟨fc, ft, vs, vst, orb, col, pv, cd⟩ := by
  have hok : toksOk (Sentinel5PProduct.toks ft) [fc, vs, vst, orb, col, pv, cd] :=
    ⟨hfc, hfcc, hvs, hvsc, hvst, hvstc, horb, horbc, hcol, hcolc, hpv, hpvc, hcd, hcdc,
      trivial⟩
  have hrun := runToks_mkInput (Sentinel5PProduct.toks ft) [fc, vs, vst, orb, col, pv, cd] hok
  have heq : mkInput (Sentinel5PProduct.toks ft) [fc, vs, vst, orb, col, pv, cd] =
      stdName fc ft vs vst orb col pv cd := by
    show "S5P_".toList ++ (fc ++ ("_".toList ++ (ft ++ ("_".toList ++ (vs ++ ("_".toList ++
      (vst ++ ("_".toList ++ (orb ++ ("_".toList ++ (col ++ ("_".toList ++ (pv ++
      ("_".toList ++ (cd ++ (".nc".toList ++ ([] : List Char))))))))))))))))) = _
    rw [List.append_nil]
    rfl
  rw [heq] at hrun
  unfold Sentinel5PProduct.matchFilename
  rw [hrun]

theorem matchFilename_auxName (fc ft vs vst cd ext0 : List Char)
    (hfc : fc.length = 4) (hfcc : fc.all dotChar = true)
    (hvs : vs.length = 15) (hvsc : vs.all dateChar = true)
    (hvst : vst.length = 15) (hvstc : vst.all dateChar = true)
    (hcd : cd.length = 15) (hcdc : cd.all dateChar = true)
    (hext : ext0 ≠ []) :
    Sentinel5PAuxiliaryProduct.matchFilename ft ext0 (auxName fc ft vs vst cd ext0) =
      some ⟨fc, ft, vs, vst, cd⟩ := by
  have hok : toksOk (Sentinel5PAuxiliaryProduct.toks ft ext0) [fc, vs, vst, cd] :=
    ⟨hfc, hfcc, hvs, hvsc, hvst, hvstc, hcd, hcdc, trivial⟩
  have hrun := runToks_mkInput (Sentinel5PAuxiliaryProduct.toks ft ext0) [fc, vs, vst, cd] hok
  have heq : mkInput (Sentinel5PAuxiliaryProduct.toks ft ext0) [fc, vs, vst, cd] =
      auxName fc ft vs vst cd ext0 := by
    show "S5P_".toList ++ (fc ++ ("_".toList ++ (ft ++ ("_".toList ++ (vs ++ ("_".toList ++
      (vst ++ ("_".toList ++ (cd ++ ((if ext0 = [] then [] else '.' :: ext0) ++
      ([] : List Char))))))))))) = _
    rw [if_neg hext, List.append_nil]
    rfl
  rw [heq] at hrun
  unfold Sentinel5PAuxiliaryProduct.matchFilename
  rw [hrun]

theorem matchFilename_niseName (ds : List Char)
    (hds : ds.length = 8) (hdsc : ds.all Char.isDigit = true) :
    Sentinel5PAuxiliaryNISEProduct.matchFilename (niseName ds) = some ⟨ds⟩ := by
  have hok : toksOk Sentinel5PAuxiliaryNISEProduct.toks [ds] := ⟨hds, hdsc, trivial⟩
  have hrun := runToks_mkInput Sentinel5PAuxiliaryNISEProduct.toks [ds] hok
  have heq : mkInput Sentinel5PAuxiliaryNISEProduct.toks [ds] = niseName ds := by
    show "NISE_SSMISF18_".toList ++ (ds ++ (".HDFEOS".toList ++ ([] : List Char))) = _
    rw [List.append_nil]
    rfl
  rw [heq] at hrun
  unfold Sentinel5PAuxiliaryNISEProduct.matchFilename
  rw [hrun]

/-! Evaluation of analyze under parsing hypotheses. -/

theorem footprintStep_fnameOnly (env : CodaEnv) (inpath : List Char) :
    Sentinel5PProduct.footprintStep env inpath true = some none := rfl

theorem analyze_std_eval (env : CodaEnv) (ft p : List Char) (na : StdNameAttrs)
    (dcd dvs dvst : PyDateTime) (no nc npv : Int)
    (hna : Sentinel5PProduct.matchFilename ft (basename p) = some na)
    (hcd : strptimeYmdTHMS na.creation_date = some dcd)
    (hvs : strptimeYmdTHMS na.validity_start = some dvs)
    (hvst : strptimeYmdTHMS na.validity_stop = some dvst)
    (horb : pythonInt na.orbit = some no)
    (hcol : pythonInt na.collection = some nc)
    (hpv : pythonInt na.processor_version = some npv) :
    Sentinel5PProduct.analyze env ft [p] true =
      some { core := { product_name := splitextStem (basename p), creation_date := dcd,
                       validity_start := dvs, validity_stop := dvst, footprint := none },
             s5p := { file_class := na.file_class, file_type := na.file_type,
                      orbit := some no, collection := some nc,
                      processor_version := some npv } } := by
  unfold Sentinel5PProduct.analyze
  simp only [List.head?_cons, Option.bind_eq_bind, Option.some_bind, hna, hcd, hvs, hvst,
    footprintStep_fnameOnly, horb, hcol, hpv]
  rfl

theorem analyze_aux_eval (ft ext0 p : List Char) (na : AuxNameAttrs)
    (dcd vsv vstv : PyDateTime) (fo : Bool)
    (hna : Sentinel5PAuxiliaryProduct.matchFilename ft ext0 (basename p) = some na)
    (hcd : strptimeYmdTHMS na.creation_date = some dcd)
    (hvs : (if na.validity_start = zeroSentinel then some datetimeMin
            else strptimeYmdTHMS na.validity_start) = some vsv)
    (hvst : (if na.validity_stop = nineSentinel then some datetimeMax
             else strptimeYmdTHMS na.validity_stop) = some vstv) :
    Sentinel5PAuxiliaryProduct.analyze ft ext0 [p] fo =
      some { core := { product_name := splitextStem (basename p), creation_date := dcd,
                       validity_start := vsv, validity_stop := vstv, footprint := none },
             s5p := { file_class := na.file_class, file_type := na.file_type,
                      orbit := none, collection := none, processor_version := none } } := by
  unfold Sentinel5PAuxiliaryProduct.analyze
  simp only [List.head?_cons, Option.bind_eq_bind, Option.some_bind, hna, hcd, hvs, hvst]
  rfl

theorem analyze_nise_eval (p : List Char) (na : NiseNameAttrs) (d d2 : PyDateTime) (fo : Bool)
    (hna : Sentinel5PAuxiliaryNISEProduct.matchFilename (basename p) = some na)
    (hd : strptimeYmd na.validity_start = some d)
    (hd2 : addOneDay d = some d2) :
    Sentinel5PAuxiliaryNISEProduct.analyze [p] fo =
      some { core := { product_name := splitextStem (basename p), creation_date := d,
                       validity_start := d, validity_stop := d2, footprint := none },
             s5p := { file_class := "OPER".toList, file_type := "AUX_NISE__".toList,
                      orbit := none, collection := none, processor_version := none } } := by
  unfold Sentinel5PAuxiliaryNISEProduct.analyze
  simp only [List.head?_cons, Option.bind_eq_bind, Option.some_bind, hna, hd, hd2]
  rfl

theorem analyze_std_isSome_iff (env : CodaEnv) (ft p : List Char) (na : StdNameAttrs)
    (hna : Sentinel5PProduct.matchFilename ft (basename p) = some na) :
    (Sentinel5PProduct.analyze env ft [p] true).isSome = true ↔
      ((strptimeYmdTHMS na.creation_date).isSome = true ∧
       (strptimeYmdTHMS na.validity_start).isSome = true ∧
       (strptimeYmdTHMS na.validity_stop).isSome = true ∧
       (pythonInt na.orbit).isSome = true ∧
       (pythonInt na.collection).isSome = true ∧
       (pythonInt na.processor_version).isSome = true) := by
  unfold Sentinel5PProduct.analyze
  simp only [List.head?_cons, Option.bind_eq_bind, Option.some_bind, hna,
    footprintStep_fnameOnly]
  cases h1 : strptimeYmdTHMS na.creation_date with
  | none => simp [h1]
  | some dcd =>
    simp only [Option.some_bind]
    cases h2 : strptimeYmdTHMS na.validity_start with
    | none => simp [h1, h2]
    | some dvs =>
      simp only [Option.some_bind]
      cases h3 : strptimeYmdTHMS na.validity_stop with
      | none => simp [h1, h2, h3]
      | some dvst =>
        simp only [Option.some_bind]
        cases h4 : pythonInt na.orbit with
        | none => simp [h1, h2, h3, h4]
        | some no =>
          simp only [Option.some_bind]
          cases h5 : pythonInt na.collection with
          | none => simp [h1, h2, h3, h4, h5]
          | some nc =>
            simp only [Option.some_bind]
            cases h6 : pythonInt na.processor_version with
            | none => simp [h1, h2, h3, h4, h5, h6]
            | some npv => simp [h1, h2, h3, h4, h5, h6]

/-! Claim theorems. -/

/-- C10: for every classifier variant, identify on a path list whose length is
not exactly one returns false and never throws, and identify returns true only
when exactly one path is given and its basename matches the variant's
grammar. -/
theorem c10_identify_arity (paths : List (List Char)) :
    (∀ ft, paths.length ≠ 1 → Sentinel5PProduct.identify ft paths = false) ∧
    (∀ ft ext0, paths.length ≠ 1 → Sentinel5PAuxiliaryProduct.identify ft ext0 paths = false) ∧
    (paths.length ≠ 1 → Sentinel5PAuxiliaryNISEProduct.identify paths = false) ∧
    (∀ ft, Sentinel5PProduct.identify ft paths = true →
      ∃ p, paths = [p] ∧ (Sentinel5PProduct.matchFilename ft (basename p)).isSome = true) ∧
    (∀ ft ext0, Sentinel5PAuxiliaryProduct.identify ft ext0 paths = true →
      ∃ p, paths = [p] ∧
        (Sentinel5PAuxiliaryProduct.matchFilename ft ext0 (basename p)).isSome = true) ∧
    (Sentinel5PAuxiliaryNISEProduct.identify paths = true →
      ∃ p, paths = [p] ∧ (Sentinel5PAuxiliaryNISEProduct.matchFilename (basename p)).isSome = true) := by
  cases paths with
  | nil =>
    exact ⟨fun ft h => rfl, fun ft e h => rfl, fun h => rfl,
      fun ft h => Bool.noConfusion h, fun ft e h => Bool.noConfusion h,
      fun h => Bool.noConfusion h⟩
  | cons p rest =>
    cases rest with
    | nil =>
      exact ⟨fun ft h => absurd rfl h, fun ft e h => absurd rfl h, fun h => absurd rfl h,
        fun ft h => ⟨p, rfl, h⟩, fun ft e h => ⟨p, rfl, h⟩, fun h => ⟨p, rfl, h⟩⟩
    | cons q r =>
      exact ⟨fun ft h => rfl, fun ft e h => rfl, fun h => rfl,
        fun ft h => Bool.noConfusion h, fun ft e h => Bool.noConfusion h,
        fun h => Bool.noConfusion h⟩

/-- C10 witness: the empty path list is rejected by every variant. -/
theorem c10_witness :
    Sentinel5PProduct.identify "L2__NO2___".toList [] = false ∧
    Sentinel5PAuxiliaryNISEProduct.identify [] = false :=
  ⟨(c10_identify_arity []).1 "L2__NO2___".toList (by decide),
   (c10_identify_arity []).2.2.1 (by decide)⟩

/-- C4 counterexample: an identifier outside the registry's catalog for which
resolve nevertheless returns a classifier, because dispatch only inspects the
identifier from its fifth character on. -/
theorem c4_counterexample :
    product_type_plugin "ZZZ_L2__NO2___".toList ≠ none ∧
    "ZZZ_L2__NO2___".toList ∉ product_types := by decide

/-- C4 (amended): resolve never throws, and it returns None exactly when the
identifier with its first four characters removed is not a recognized family
code; identifiers outside the catalog whose tail is a family code resolve to a
classifier instead of None. -/
theorem c4_resolve_none_iff (mt : List Char) :
    product_type_plugin mt = none ↔
      (mt.drop 4 ∉ L1_PRODUCT_TYPES ++ L2_PRODUCT_TYPES ∧
       mt.drop 4 ≠ "AUX_NISE__".toList ∧
       mt.drop 4 ∉ AUX_PRODUCT_TYPES) := by
  unfold product_type_plugin
  dsimp only
  split_ifs with h1 h2 h3 h4 <;> simp_all

/-- C5: for every identifier in the registry's catalog, resolve returns a
classifier of the variant the specification describes: Standard for L1/L2
family codes, LegacyAux exactly for the snow/ice code, GenericAux for the
other auxiliary codes with extension cfg exactly when the family code starts
with CFG and nc otherwise. -/
theorem c5_registry_total : product_types.all registrySpecOk = true := by decide

/-- C3 counterexample: with the reader installed but the product not openable
as a structured scientific file, the open error escapes get_footprint, because
the source calls the open outside its try block. -/
theorem c3_counterexample :
    get_footprint openFailEnv "not_a_structured_file".toList =
      Except.error PyExc.codacError := rfl

/-- C3 (amended): get_footprint returns the unavailable result, raising
nothing, when the reader capability is absent, when the metadata fetch fails,
and when the coordinate count is odd; but an error can escape, and only from
opening the product or from converting a coordinate. -/
theorem c3_footprint (env : CodaEnv) (p : List Char) :
    (env.available = false → get_footprint env p = Except.ok none) ∧
    (env.available = true → env.openOk p = true →
      ∀ e, env.fetchRes p = Except.error e → get_footprint env p = Except.ok none) ∧
    (env.available = true → env.openOk p = true →
      ∀ s, env.fetchRes p = Except.ok s → (pySplitChar ' ' s).length % 2 ≠ 0 →
        get_footprint env p = Except.ok none) ∧
    (∀ e, get_footprint env p = Except.error e →
      env.available = true ∧
      (env.openOk p = false ∨
        ∃ s, env.fetchRes p = Except.ok s ∧ (pySplitChar ' ' s).length % 2 = 0 ∧
          (zipEvenOdd (pySplitChar ' ' s)).any
            (fun pr => env.floatFails pr.2 || env.floatFails pr.1) = true)) := by
  refine ⟨?_, ?_, ?_, ?_⟩
  · intro h
    unfold get_footprint
    rw [if_pos h]
  · intro ha ho e hf
    unfold get_footprint
    rw [if_neg (by simp [ha]), if_neg (by simp [ho]), hf]
  · intro ha ho s hf hodd
    unfold get_footprint
    rw [if_neg (by simp [ha]), if_neg (by simp [ho]), hf]
    dsimp only
    have hb : ((pySplitChar ' ' s).length % 2 != 0) = true := by
      simpa using hodd
    rw [if_pos hb]
  · intro e h
    unfold get_footprint at h
    by_cases h1 : env.available = false
    · rw [if_pos h1] at h
      exact absurd h (by simp)
    · rw [if_neg h1] at h
      have ha : env.available = true := by
        cases hv : env.available
        · exact absurd hv h1
        · rfl
      by_cases h2 : env.openOk p = false
      · rw [if_pos h2] at h
        exact ⟨ha, Or.inl h2⟩
      · rw [if_neg h2] at h
        cases hf : env.fetchRes p with
        | error e2 =>
          rw [hf] at h
          exact absurd h (by simp)
        | ok s =>
          rw [hf] at h
          dsimp only at h
          by_cases h3 : ((pySplitChar ' ' s).length % 2 != 0) = true
          · rw [if_pos h3] at h
            exact absurd h (by simp)
          · rw [if_neg h3] at h
            have heven : (pySplitChar ' ' s).length % 2 = 0 := by
              simpa using h3
            by_cases h4 : ((zipEvenOdd (pySplitChar ' ' s)).any
                (fun pr => env.floatFails pr.2 || env.floatFails pr.1)) = true
            · exact ⟨ha, Or.inr ⟨s, rfl, heven, h4⟩⟩
            · rw [if_neg h4] at h
              exact absurd h (by simp)

/-- C3 witness: with the reader capability absent, the resolver reports no
footprint rather than raising. -/
theorem c3_witness : get_footprint noCodaEnv "product.nc".toList = Except.ok none :=
  (c3_footprint noCodaEnv "product.nc".toList).1 rfl

/-- C8: the standard archive path is
sentinel-5p/file type/file class/year/month/day of the validity start, with
zero padded month and day, and never includes the filename itself; stated for
years at or above 1000, where the year rendering is platform independent. -/
theorem c8_std_archive_path (ft physName : List Char) (vs : PyDateTime) (na : StdNameAttrs)
    (hna : Sentinel5PProduct.matchFilename ft (basename physName) = some na)
    (hyear : 1000 ≤ vs.year) :
    Sentinel5PProduct.archive_path ft physName vs =
      some ("sentinel-5p/".toList ++ na.file_type ++ "/".toList ++ na.file_class ++
        "/".toList ++ fmtYear vs.year ++ "/".toList ++ fmt2 vs.month ++ "/".toList ++
        fmt2 vs.day) := by
  unfold Sentinel5PProduct.archive_path
  rw [hna]
  rfl

/-- C8 witness: the instance from the specification, file type L2 NO2, file
class OFFL, validity start 2021-03-05. -/
theorem c8_witness :
    Sentinel5PProduct.archive_path "L2__NO2___".toList stdExampleName ⟨2021, 3, 5, 1, 2, 3⟩ =
      some "sentinel-5p/L2__NO2___/OFFL/2021/03/05".toList :=
  c8_std_archive_path "L2__NO2___".toList stdExampleName ⟨2021, 3, 5, 1, 2, 3⟩
    ⟨"OFFL".toList, "L2__NO2___".toList, "20210305T010203".toList, "20210305T020203".toList,
      "01234".toList, "01".toList, "010000".toList, "20210305T030405".toList⟩
    (by decide) (by decide)

/-- C9: every record the standard classifier returns carries the three integer
fields, and every record either auxiliary classifier returns leaves all three
absent. -/
theorem c9_integer_field_presence :
    (∀ env ft paths fo r, Sentinel5PProduct.analyze env ft paths fo = some r →
      r.s5p.orbit.isSome = true ∧ r.s5p.collection.isSome = true ∧
      r.s5p.processor_version.isSome = true) ∧
    (∀ ft ext0 paths fo r, Sentinel5PAuxiliaryProduct.analyze ft ext0 paths fo = some r →
      r.s5p.orbit = none ∧ r.s5p.collection = none ∧ r.s5p.processor_version = none) ∧
    (∀ paths fo r, Sentinel5PAuxiliaryNISEProduct.analyze paths fo = some r →
      r.s5p.orbit = none ∧ r.s5p.collection = none ∧ r.s5p.processor_version = none) := by
  refine ⟨?_, ?_, ?_⟩
  · intro env ft paths fo r h
    cases paths with
    | nil => exact absurd h (by simp [Sentinel5PProduct.analyze])
    | cons p rest =>
      unfold Sentinel5PProduct.analyze at h
      simp only [List.head?_cons, Option.bind_eq_bind, Option.some_bind, Option.bind_eq_some,
        Option.pure_def, Option.some.injEq] at h
      obtain ⟨na, hna, cd, hcd, vs, hvs, vst, hvst, fp, hfp, orb, horb, col, hcol, pv, hpv,
        hr⟩ := h
      subst hr
      exact ⟨rfl, rfl, rfl⟩
  · intro ft ext0 paths fo r h
    cases paths with
    | nil => exact absurd h (by simp [Sentinel5PAuxiliaryProduct.analyze])
    | cons p rest =>
      unfold Sentinel5PAuxiliaryProduct.analyze at h
      simp only [List.head?_cons, Option.bind_eq_bind, Option.some_bind, Option.bind_eq_some,
        Option.pure_def, Option.some.injEq] at h
      obtain ⟨na, hna, cd, hcd, vs, hvs, vst, hvst, hr⟩ := h
      subst hr
      exact ⟨rfl, rfl, rfl⟩
  · intro paths fo r h
    cases paths with
    | nil => exact absurd h (by simp [Sentinel5PAuxiliaryNISEProduct.analyze])
    | cons p rest =>
      unfold Sentinel5PAuxiliaryNISEProduct.analyze at h
      simp only [List.head?_cons, Option.bind_eq_bind, Option.some_bind, Option.bind_eq_some,
        Option.pure_def, Option.some.injEq] at h
      obtain ⟨na, hna, vs, hvs, vst, hvst, hr⟩ := h
      subst hr
      exact ⟨rfl, rfl, rfl⟩

/-- C9 witness: a standard record carries the integers, an auxiliary record
does not. -/
theorem c9_witness :
    auxExampleRecord.s5p.orbit = none ∧ auxExampleRecord.s5p.collection = none ∧
    auxExampleRecord.s5p.processor_version = none :=
  c9_integer_field_presence.2.1 "AUX_CTMANA".toList "nc".toList [auxExampleName] true
    auxExampleRecord (by decide)

/-- C6: in the generic auxiliary analyze, the all-zeros validity start
sentinel maps to the minimum timestamp and the all-nines validity stop
sentinel to the maximum timestamp, while anything else is parsed strictly;
and the archive path is the flat sentinel-5p/family-code form exactly for a
minimum validity start and the month-granular form otherwise (the latter
stated for years at or above 1000, where the year rendering is platform
independent). -/
theorem c6_aux_sentinels :
    (∀ ft ext0 p na fo r,
      Sentinel5PAuxiliaryProduct.matchFilename ft ext0 (basename p) = some na →
      Sentinel5PAuxiliaryProduct.analyze ft ext0 [p] fo = some r →
      ((na.validity_start = zeroSentinel → r.core.validity_start = datetimeMin) ∧
       (na.validity_start ≠ zeroSentinel →
         strptimeYmdTHMS na.validity_start = some r.core.validity_start) ∧
       (na.validity_stop = nineSentinel → r.core.validity_stop = datetimeMax) ∧
       (na.validity_stop ≠ nineSentinel →
         strptimeYmdTHMS na.validity_stop = some r.core.validity_stop))) ∧
    (∀ product_type vs,
      (vs = datetimeMin →
        Sentinel5PAuxiliaryProduct.archive_path product_type vs =
          "sentinel-5p/".toList ++ product_type.drop 4) ∧
      (vs ≠ datetimeMin → 1000 ≤ vs.year →
        Sentinel5PAuxiliaryProduct.archive_path product_type vs =
          "sentinel-5p/".toList ++ product_type.drop 4 ++ "/".toList ++ fmtYear vs.year ++
            "/".toList ++ fmt2 vs.month)) := by
  constructor
  · intro ft ext0 p na fo r hna h
    unfold Sentinel5PAuxiliaryProduct.analyze at h
    simp only [List.head?_cons, Option.bind_eq_bind, Option.some_bind, hna,
      Option.bind_eq_some, Option.pure_def, Option.some.injEq] at h
    obtain ⟨cd, hcd, vsv, hvsv, vstv, hvstv, hr⟩ := h
    subst hr
    refine ⟨?_, ?_, ?_, ?_⟩
    · intro hz
      rw [if_pos hz] at hvsv
      exact (Option.some.inj hvsv).symm
    · intro hnz
      rw [if_neg hnz] at hvsv
      exact hvsv
    · intro hz
      rw [if_pos hz] at hvstv
      exact (Option.some.inj hvstv).symm
    · intro hnz
      rw [if_neg hnz] at hvstv
      exact hvstv
  · intro product_type vs
    constructor
    · intro h
      unfold Sentinel5PAuxiliaryProduct.archive_path
      rw [if_pos h]
    · intro h hy
      unfold Sentinel5PAuxiliaryProduct.archive_path
      rw [if_neg h]

/-- C6 witness: the auxiliary example with both sentinels maps to the extreme
timestamps, and the minimum validity start yields the flat archive path. -/
theorem c6_witness :
    auxExampleRecord.core.validity_start = datetimeMin ∧
    auxExampleRecord.core.validity_stop = datetimeMax ∧
    Sentinel5PAuxiliaryProduct.archive_path "S5P_AUX_CTMANA".toList datetimeMin =
      "sentinel-5p/".toList ++ "S5P_AUX_CTMANA".toList.drop 4 := by
  have h := c6_aux_sentinels.1 "AUX_CTMANA".toList "nc".toList auxExampleName
    ⟨"OFFL".toList, "AUX_CTMANA".toList, zeroSentinel, nineSentinel,
      "20210305T010203".toList⟩ true auxExampleRecord (by decide) (by decide)
  exact ⟨h.1 rfl, h.2.2.1 rfl,
    (c6_aux_sentinels.2 "S5P_AUX_CTMANA".toList datetimeMin).1 rfl⟩

/-- C7 counterexample: the legacy grammar accepts the date field 99999999, but
analyze then raises instead of producing a record, so the postconditions do
not hold for every matching path. -/
theorem c7_counterexample :
    Sentinel5PAuxiliaryNISEProduct.identify ["NISE_SSMISF18_99999999.HDFEOS".toList] = true ∧
    Sentinel5PAuxiliaryNISEProduct.analyze ["NISE_SSMISF18_99999999.HDFEOS".toList] true =
      none := by decide

/-- C7 (amended): for every matching legacy path whose date field is a valid
calendar date that is not 9999-12-31, the record has validity start equal to
the parsed date at midnight, validity stop exactly one day later, creation
date equal to the validity start, file class OPER and file type the snow/ice
family code. -/
theorem c7_nise_analyze (p : List Char) (na : NiseNameAttrs) (d d2 : PyDateTime) (fo : Bool)
    (hna : Sentinel5PAuxiliaryNISEProduct.matchFilename (basename p) = some na)
    (hd : strptimeYmd na.validity_start = some d)
    (hd2 : addOneDay d = some d2) :
    d.hour = 0 ∧ d.minute = 0 ∧ d.second = 0 ∧
    Sentinel5PAuxiliaryNISEProduct.analyze [p] fo =
      some { core := { product_name := splitextStem (basename p), creation_date := d,
                       validity_start := d, validity_stop := d2, footprint := none },
             s5p := { file_class := "OPER".toList, file_type := "AUX_NISE__".toList,
                      orbit := none, collection := none, processor_version := none } } := by
  obtain ⟨h1, h2, h3⟩ := strptimeYmd_midnight _ _ hd
  exact ⟨h1, h2, h3, analyze_nise_eval p na d d2 fo hna hd hd2⟩

/-- C7 witness: the specification's instance, date field 20200115. -/
theorem c7_witness :
    Sentinel5PAuxiliaryNISEProduct.analyze [niseExampleName] true = some niseExampleRecord :=
  (c7_nise_analyze niseExampleName ⟨"20200115".toList⟩ ⟨2020, 1, 15, 0, 0, 0⟩
    ⟨2020, 1, 16, 0, 0, 0⟩ true (by decide) (by decide) (by decide)).2.2.2

/-- C2 counterexample: identify accepts an orbit field of five arbitrary
dot-class characters, but analyze then raises on the int conversion. -/
theorem c2_counterexample :
    Sentinel5PProduct.identify "L2__NO2___".toList [c2BadName] = true ∧
    Sentinel5PProduct.analyze noCodaEnv "L2__NO2___".toList [c2BadName] true = none := by
  decide

/-- C2 (amended): passing identify does not by itself make analyze safe; on a
single path whose basename matches the standard grammar, filename-only analyze
succeeds exactly when the three timestamp groups are valid timestamps and the
three integer groups are valid int literals. -/
theorem c2_analyze_success_iff (env : CodaEnv) (ft p : List Char) (na : StdNameAttrs)
    (hna : Sentinel5PProduct.matchFilename ft (basename p) = some na) :
    (Sentinel5PProduct.analyze env ft [p] true).isSome = true ↔
      ((strptimeYmdTHMS na.creation_date).isSome = true ∧
       (strptimeYmdTHMS na.validity_start).isSome = true ∧
       (strptimeYmdTHMS na.validity_stop).isSome = true ∧
       (pythonInt na.orbit).isSome = true ∧
       (pythonInt na.collection).isSome = true ∧
       (pythonInt na.processor_version).isSome = true) :=
  analyze_std_isSome_iff env ft p na hna

/-- C2 witness: the amended equivalence at a concrete well formed name. -/
theorem c2_witness :
    (Sentinel5PProduct.analyze noCodaEnv "L2__NO2___".toList [stdExampleName] true).isSome =
        true ↔
      ((strptimeYmdTHMS "20210305T030405".toList).isSome = true ∧
       (strptimeYmdTHMS "20210305T010203".toList).isSome = true ∧
       (strptimeYmdTHMS "20210305T020203".toList).isSome = true ∧
       (pythonInt "01234".toList).isSome = true ∧
       (pythonInt "01".toList).isSome = true ∧
       (pythonInt "010000".toList).isSome = true) :=
  c2_analyze_success_iff noCodaEnv "L2__NO2___".toList stdExampleName
    ⟨"OFFL".toList, "L2__NO2___".toList, "20210305T010203".toList, "20210305T020203".toList,
      "01234".toList, "01".toList, "010000".toList, "20210305T030405".toList⟩ (by decide)

/-! Basename stability of the constructed filenames. -/

theorem stdName_basename (fc ft vs vst orb col pv cd : List Char)
    (h1 : fc.all fnameChar = true) (h2 : ft.all fnameChar = true)
    (h3 : vs.all fnameChar = true) (h4 : vst.all fnameChar = true)
    (h5 : orb.all fnameChar = true) (h6 : col.all fnameChar = true)
    (h7 : pv.all fnameChar = true) (h8 : cd.all fnameChar = true) :
    basename (stdName fc ft vs vst orb col pv cd) = stdName fc ft vs vst orb col pv cd := by
  apply basename_eq_self
  have m : ∀ l : List Char, l.all fnameChar = true → l.all (fun c => c != '/') = true :=
    all_mono _ _ noSlash_of_fnameChar
  unfold stdName
  simp only [List.all_append, Bool.and_eq_true]
  exact ⟨by decide, m fc h1, by decide, m ft h2, by decide, m vs h3, by decide, m vst h4,
    by decide, m orb h5, by decide, m col h6, by decide, m pv h7, by decide, m cd h8,
    by decide⟩

theorem auxName_basename (fc ft vs vst cd ext0 : List Char)
    (h1 : fc.all fnameChar = true) (h2 : ft.all fnameChar = true)
    (h3 : vs.all fnameChar = true) (h4 : vst.all fnameChar = true)
    (h5 : cd.all fnameChar = true) (h6 : ('.' :: ext0).all fnameChar = true) :
    basename (auxName fc ft vs vst cd ext0) = auxName fc ft vs vst cd ext0 := by
  apply basename_eq_self
  have m : ∀ l : List Char, l.all fnameChar = true → l.all (fun c => c != '/') = true :=
    all_mono _ _ noSlash_of_fnameChar
  unfold auxName
  simp only [List.all_append, Bool.and_eq_true]
  exact ⟨by decide, m fc h1, by decide, m ft h2, by decide, m vs h3, by decide, m vst h4,
    by decide, m cd h5, m ('.' :: ext0) h6⟩

theorem niseName_basename (ds : List Char) (h : ds.all fnameChar = true) :
    basename (niseName ds) = niseName ds := by
  apply basename_eq_self
  have m : ∀ l : List Char, l.all fnameChar = true → l.all (fun c => c != '/') = true :=
    all_mono _ _ noSlash_of_fnameChar
  unfold niseName
  simp only [List.all_append, Bool.and_eq_true]
  exact ⟨by decide, m ds h, by decide⟩

/-- C1 counterexample: for the legacy variant, the date field 99991231 is a
parseable timestamp with correct width and character class, identify accepts
the filename, but analyze raises on the one-day addition past the maximum
timestamp instead of returning a matching record. -/
theorem c1_counterexample :
    Sentinel5PAuxiliaryNISEProduct.identify ["NISE_SSMISF18_99991231.HDFEOS".toList] = true ∧
    strptimeYmd "99991231".toList = some ⟨9999, 12, 31, 0, 0, 0⟩ ∧
    Sentinel5PAuxiliaryNISEProduct.analyze ["NISE_SSMISF18_99991231.HDFEOS".toList] true =
      none := by decide

/-- C1 (amended): the construction/analysis round trip law holds for all three
variants once the integer slots of the standard variant hold decimal digit
strings and the legacy date denotes a valid calendar date before 9999-12-31:
identify accepts the constructed filename and analyze returns the record whose
fields are the parsed literals used to construct it. -/
theorem c1_roundtrip :
    (∀ env fc ft vs vst orb col pv cd dvs dvst dcd,
      fc.length = 4 → fc.all fnameChar = true →
      ft.all ftChar = true →
      orb.length = 5 → orb.all Char.isDigit = true →
      col.length = 2 → col.all Char.isDigit = true →
      pv.length = 6 → pv.all Char.isDigit = true →
      strptimeYmdTHMS vs = some dvs →
      strptimeYmdTHMS vst = some dvst →
      strptimeYmdTHMS cd = some dcd →
      Sentinel5PProduct.identify ft [stdName fc ft vs vst orb col pv cd] = true ∧
      Sentinel5PProduct.analyze env ft [stdName fc ft vs vst orb col pv cd] true =
        some { core := { product_name := splitextStem (stdName fc ft vs vst orb col pv cd),
                         creation_date := dcd, validity_start := dvs, validity_stop := dvst,
                         footprint := none },
               s5p := { file_class := fc, file_type := ft,
                        orbit := some ((digitsToNat orb : Nat) : Int),
                        collection := some ((digitsToNat col : Nat) : Int),
                        processor_version := some ((digitsToNat pv : Nat) : Int) } }) ∧
    (∀ fc ft ext0 vs vst cd dvs dvst dcd fo,
      (ext0 = "nc".toList ∨ ext0 = "cfg".toList) →
      fc.length = 4 → fc.all fnameChar = true →
      ft.all ftChar = true →
      strptimeYmdTHMS vs = some dvs →
      strptimeYmdTHMS vst = some dvst →
      strptimeYmdTHMS cd = some dcd →
      Sentinel5PAuxiliaryProduct.identify ft ext0 [auxName fc ft vs vst cd ext0] = true ∧
      Sentinel5PAuxiliaryProduct.analyze ft ext0 [auxName fc ft vs vst cd ext0] fo =
        some { core := { product_name := splitextStem (auxName fc ft vs vst cd ext0),
                         creation_date := dcd, validity_start := dvs, validity_stop := dvst,
                         footprint := none },
               s5p := { file_class := fc, file_type := ft, orbit := none, collection := none,
                        processor_version := none } }) ∧
    (∀ ds d d2 fo,
      ds.length = 8 → ds.all Char.isDigit = true →
      strptimeYmd ds = some d → addOneDay d = some d2 →
      Sentinel5PAuxiliaryNISEProduct.identify [niseName ds] = true ∧
      Sentinel5PAuxiliaryNISEProduct.analyze [niseName ds] fo =
        some { core := { product_name := splitextStem (niseName ds), creation_date := d,
                         validity_start := d, validity_stop := d2, footprint := none },
               s5p := { file_class := "OPER".toList, file_type := "AUX_NISE__".toList,
                        orbit := none, collection := none, processor_version := none } }) := by
  refine ⟨?_, ?_, ?_⟩
  · intro env fc ft vs vst orb col pv cd dvs dvst dcd hfcl hfcc hftc horbl horbc hcoll hcolc
      hpvl hpvc hvs hvst hcd
    obtain ⟨hvsl, hvsc⟩ := strptimeYmdTHMS_shape _ _ hvs
    obtain ⟨hvstl, hvstc⟩ := strptimeYmdTHMS_shape _ _ hvst
    obtain ⟨hcdl, hcdc⟩ := strptimeYmdTHMS_shape _ _ hcd
    have hb : basename (stdName fc ft vs vst orb col pv cd) =
        stdName fc ft vs vst orb col pv cd :=
      stdName_basename fc ft vs vst orb col pv cd hfcc
        (all_mono _ _ fnameChar_of_ftChar _ hftc)
        (all_mono _ _ fnameChar_of_dateChar _ hvsc)
        (all_mono _ _ fnameChar_of_dateChar _ hvstc)
        (all_mono _ _ fnameChar_of_digit _ horbc)
        (all_mono _ _ fnameChar_of_digit _ hcolc)
        (all_mono _ _ fnameChar_of_digit _ hpvc)
        (all_mono _ _ fnameChar_of_dateChar _ hcdc)
    have hm : Sentinel5PProduct.matchFilename ft
        (basename (stdName fc ft vs vst orb col pv cd)) =
        some ⟨fc, ft, vs, vst, orb, col, pv, cd⟩ := by
      rw [hb]
      exact matchFilename_stdName fc ft vs vst orb col pv cd hfcl
        (all_mono _ _ dotChar_of_fnameChar _ hfcc) hvsl hvsc hvstl hvstc horbl
        (all_mono _ _ dotChar_of_digit _ horbc) hcoll
        (all_mono _ _ dotChar_of_digit _ hcolc) hpvl
        (all_mono _ _ dotChar_of_digit _ hpvc) hcdl hcdc
    constructor
    · show (Sentinel5PProduct.matchFilename ft
        (basename (stdName fc ft vs vst orb col pv cd))).isSome = true
      rw [hm]
      rfl
    · have horbne : orb ≠ [] := by
        intro he
        rw [he] at horbl
        exact absurd horbl (by decide)
      have hcolne : col ≠ [] := by
        intro he
        rw [he] at hcoll
        exact absurd hcoll (by decide)
      have hpvne : pv ≠ [] := by
        intro he
        rw [he] at hpvl
        exact absurd hpvl (by decide)
      have h := analyze_std_eval env ft (stdName fc ft vs vst orb col pv cd)
        ⟨fc, ft, vs, vst, orb, col, pv, cd⟩ dcd dvs dvst _ _ _ hm hcd hvs hvst
        (pythonInt_digits orb horbne horbc) (pythonInt_digits col hcolne hcolc)
        (pythonInt_digits pv hpvne hpvc)
      rw [hb] at h
      exact h
  · intro fc ft ext0 vs vst cd dvs dvst dcd fo hext hfcl hfcc hftc hvs hvst hcd
    have hextne : ext0 ≠ [] := by
      rcases hext with h | h
      · subst h; decide
      · subst h; decide
    have hdotext : ('.' :: ext0).all fnameChar = true := by
      rcases hext with h | h
      · subst h; decide
      · subst h; decide
    obtain ⟨hvsl, hvsc⟩ := strptimeYmdTHMS_shape _ _ hvs
    obtain ⟨hvstl, hvstc⟩ := strptimeYmdTHMS_shape _ _ hvst
    obtain ⟨hcdl, hcdc⟩ := strptimeYmdTHMS_shape _ _ hcd
    have hvsne : vs ≠ zeroSentinel := by
      intro he
      rw [he] at hvs
      have hz : strptimeYmdTHMS zeroSentinel = none := by decide
      rw [hz] at hvs
      exact Option.noConfusion hvs
    have hvstne : vst ≠ nineSentinel := by
      intro he
      rw [he] at hvst
      have hz : strptimeYmdTHMS nineSentinel = none := by decide
      rw [hz] at hvst
      exact Option.noConfusion hvst
    have hb : basename (auxName fc ft vs vst cd ext0) = auxName fc ft vs vst cd ext0 :=
      auxName_basename fc ft vs vst cd ext0 hfcc
        (all_mono _ _ fnameChar_of_ftChar _ hftc)
        (all_mono _ _ fnameChar_of_dateChar _ hvsc)
        (all_mono _ _ fnameChar_of_dateChar _ hvstc)
        (all_mono _ _ fnameChar_of_dateChar _ hcdc) hdotext
    have hm : Sentinel5PAuxiliaryProduct.matchFilename ft ext0
        (basename (auxName fc ft vs vst cd ext0)) = some ⟨fc, ft, vs, vst, cd⟩ := by
      rw [hb]
      exact matchFilename_auxName fc ft vs vst cd ext0 hfcl
        (all_mono _ _ dotChar_of_fnameChar _ hfcc) hvsl hvsc hvstl hvstc hcdl hcdc hextne
    constructor
    · show (Sentinel5PAuxiliaryProduct.matchFilename ft ext0
        (basename (auxName fc ft vs vst cd ext0))).isSome = true
      rw [hm]
      rfl
    · have hvs2 : (if vs = zeroSentinel then some datetimeMin else strptimeYmdTHMS vs) =
          some dvs := by
        rw [if_neg hvsne]
        exact hvs
      have hvst2 : (if vst = nineSentinel then some datetimeMax else strptimeYmdTHMS vst) =
          some dvst := by
        rw [if_neg hvstne]
        exact hvst
      have h := analyze_aux_eval ft ext0 (auxName fc ft vs vst cd ext0)
        ⟨fc, ft, vs, vst, cd⟩ dcd dvs dvst fo hm hcd hvs2 hvst2
      rw [hb] at h
      exact h
  · intro ds d d2 fo hdsl hdsc hd hd2
    have hb : basename (niseName ds) = niseName ds :=
      niseName_basename ds (all_mono _ _ fnameChar_of_digit _ hdsc)
    have hm : Sentinel5PAuxiliaryNISEProduct.matchFilename (basename (niseName ds)) =
        some ⟨ds⟩ := by
      rw [hb]
      exact matchFilename_niseName ds hdsl hdsc
    constructor
    · show (Sentinel5PAuxiliaryNISEProduct.matchFilename
        (basename (niseName ds))).isSome = true
      rw [hm]
      rfl
    · have h := analyze_nise_eval (niseName ds) ⟨ds⟩ d d2 fo hm hd hd2
      rw [hb] at h
      exact h

/-- C1 witness: the standard round trip at a concrete well formed name. -/
theorem c1_witness :
    Sentinel5PProduct.identify "L2__NO2___".toList [stdExampleName] = true ∧
    Sentinel5PProduct.analyze noCodaEnv "L2__NO2___".toList [stdExampleName] true =
      some { core := { product_name := splitextStem stdExampleName,
                       creation_date := ⟨2021, 3, 5, 3, 4, 5⟩,
                       validity_start := ⟨2021, 3, 5, 1, 2, 3⟩,
                       validity_stop := ⟨2021, 3, 5, 2, 2, 3⟩, footprint := none },
             s5p := { file_class := "OFFL".toList, file_type := "L2__NO2___".toList,
                      orbit := some ((digitsToNat "01234".toList : Nat) : Int),
                      collection := some ((digitsToNat "01".toList : Nat) : Int),
                      processor_version :=
                        some ((digitsToNat "010000".toList : Nat) : Int) } } :=
  c1_roundtrip.1 noCodaEnv "OFFL".toList "L2__NO2___".toList "20210305T010203".toList
    "20210305T020203".toList "01234".toList "01".toList "010000".toList
    "20210305T030405".toList ⟨2021, 3, 5, 1, 2, 3⟩ ⟨2021, 3, 5, 2, 2, 3⟩ ⟨2021, 3, 5, 3, 4, 5⟩
    (by decide) (by decide) (by decide) (by decide) (by decide) (by decide) (by decide)
    (by decide) (by decide) (by decide) (by decide) (by decide)
